import Mathlib

/-!
Shallow embedding of the remediation-orchestration core of the repository:
the runner in `openhands_driver/agent_wrapper.py` (risk policy, retry with
back-off, fallback to simulation), the stability verifier
`verify_stable_endpoint` in `run_demo.py`, and the fan-out dispatcher in
`scripts/fanout_sre.py` (one-shot and continuous-arrival scheduling).

External effects are modelled as data: a remote agent session is a
`SessionTrace` (the tool actions and risk annotations the SDK would report,
or an exception string), an HTTP poll is a `ProbeObs`, wall-clock sleeps are
recorded as the list of slept durations, and worker completions arrive as
`Except`-valued results.  Python strings are Lean `String`s; `str.lower` and
`str.upper` are modelled on ASCII (every string the program compares against
is ASCII).  Wall-clock float fields (timestamps, latencies) are outside the
embedding and omitted from records.
-/

namespace OpenhandsSRE

/-! ## Python string primitives -/

/-- ASCII lower-casing of one character, as CPython does for ASCII input. -/
def lowerChar (c : Char) : Char :=
  if 65 ≤ c.toNat ∧ c.toNat ≤ 90 then Char.ofNat (c.toNat + 32) else c

/-- ASCII upper-casing of one character. -/
def upperChar (c : Char) : Char :=
  if 97 ≤ c.toNat ∧ c.toNat ≤ 122 then Char.ofNat (c.toNat - 32) else c

/-- Python `s.lower()` (ASCII fragment). -/
def pyLower (s : String) : String := ⟨s.data.map lowerChar⟩

/-- Python `s.upper()` (ASCII fragment). -/
def pyUpper (s : String) : String := ⟨s.data.map upperChar⟩

/-- `pat` begins the character list. -/
def startsWithL : List Char → List Char → Bool
  | [], _ => true
  | _ :: _, [] => false
  | p :: ps, c :: cs => p == c && startsWithL ps cs

/-- `pat` occurs somewhere in the character list. -/
def hasSubL (pat : List Char) : List Char → Bool
  | [] => startsWithL pat []
  | c :: cs => startsWithL pat (c :: cs) || hasSubL pat cs

/-- Python `pat in s` on strings (substring containment). -/
def pyIn (pat s : String) : Bool := hasSubL pat.data s.data

/-! ## agent_wrapper.py: risk model -/

/-- `RISK_ORDER` dict at the top of `agent_wrapper.py`; `none` means the key
is absent. -/
def RISK_ORDER (s : String) : Option Nat :=
  if s = "UNKNOWN" then some 0
  else if s = "LOW" then some 1
  else if s = "MEDIUM" then some 2
  else if s = "HIGH" then some 3
  else none

/-- `_risk_value(level)`: `RISK_ORDER.get((level or "UNKNOWN").upper(), 0)`.
`none` models Python `None`; the empty string is falsy, so both fall back to
`"UNKNOWN"`. -/
def risk_value (level : Option String) : Nat :=
  (RISK_ORDER (pyUpper (match level with
    | none => "UNKNOWN"
    | some s => if s = "" then "UNKNOWN" else s))).getD 0

/-- The transient-error marker list of `_is_transient_remote_error`. -/
def transient_markers : List String :=
  ["remote conversation not found",
   "runtime may have been deleted",
   "server disconnected without sending a response",
   "remoteprotocolerror",
   "connection reset",
   "temporarily unavailable"]

/-- `_is_transient_remote_error(exc)`: some marker occurs in the lower-cased
exception message. -/
def is_transient_remote_error (msg : String) : Bool :=
  transient_markers.any (fun m => pyIn m (pyLower msg))

/-! ## agent_wrapper.py: results and the simulated adapter -/

/-- `OpenHandsResult` dataclass. -/
structure OpenHandsResult where
  strategy_hint : String
  raw_output : String
  service_up : Bool
  step_count : Nat
  events : List String
  scenario_id : String
  tool_actions : List String
  security_risks : List String
  max_security_risk_seen : String
  confirmation_required : Bool
deriving Repr, DecidableEq

/-- `_scenario_from_error(error_report)`: keyword matching on the lower-cased
report, defaulting to `stale_lockfile`. -/
def scenario_from_error (error_report : String) : String :=
  if pyIn "stale_lockfile" (pyLower error_report) || pyIn "lockfile" (pyLower error_report) then
    "stale_lockfile"
  else if pyIn "bad_env_config" (pyLower error_report) || pyIn "required_api_key" (pyLower error_report)
      || pyIn "missing env" (pyLower error_report) then
    "bad_env_config"
  else if pyIn "readiness_probe_fail" (pyLower error_report) || pyIn "ready.flag" (pyLower error_report)
      || pyIn "readiness" (pyLower error_report) then
    "readiness_probe_fail"
  else if pyIn "port_mismatch" (pyLower error_report) || pyIn "wrong port" (pyLower error_report)
      || pyIn "5001" (pyLower error_report) then
    "port_mismatch"
  else "stale_lockfile"

/-- `_is_optimized_for_scenario(strategy_hint, scenario_id)`. -/
def is_optimized_for_scenario (strategy_hint scenario_id : String) : Bool :=
  if scenario_id = "stale_lockfile" then
    (pyIn "lockfile" (pyLower strategy_hint) || pyIn "service.lock" (pyLower strategy_hint))
      && pyIn "/tmp" (pyLower strategy_hint)
  else if scenario_id = "bad_env_config" then
    pyIn "required_api_key" (pyLower strategy_hint)
      || (pyIn "env" (pyLower strategy_hint) && pyIn "config" (pyLower strategy_hint))
  else if scenario_id = "readiness_probe_fail" then
    pyIn "ready.flag" (pyLower strategy_hint) || pyIn "readiness" (pyLower strategy_hint)
  else if scenario_id = "port_mismatch" then
    pyIn "port" (pyLower strategy_hint)
      && (pyIn "5000" (pyLower strategy_hint) || pyIn "5001" (pyLower strategy_hint))
  else false

/-- `baseline_events` dict in `_mock_plan`; `none` = key absent. -/
def baseline_events (target_url scenario_id : String) : Option (List String) :=
  if scenario_id = "stale_lockfile" then
    some ["curl -i " ++ target_url, "cat /app/app.py", "pip list", "ls -la /tmp",
          "rm -f /tmp/service.lock", "curl -i " ++ target_url]
  else if scenario_id = "bad_env_config" then
    some ["curl -i " ++ target_url, "cat /app/app.py", "printenv | sort",
          "export REQUIRED_API_KEY=demo-key", "curl -i " ++ target_url]
  else if scenario_id = "readiness_probe_fail" then
    some ["curl -i " ++ target_url, "cat /app/app.py", "ls -la /tmp",
          "touch /tmp/ready.flag", "curl -i " ++ target_url]
  else if scenario_id = "port_mismatch" then
    some ["curl -i " ++ target_url, "ss -lntp", "curl -i localhost:5001",
          "socat TCP-LISTEN:5000,fork TCP:127.0.0.1:5001", "curl -i " ++ target_url]
  else none

/-- `optimized_events` dict in `_mock_plan`. -/
def optimized_events (target_url scenario_id : String) : Option (List String) :=
  if scenario_id = "stale_lockfile" then
    some ["ls -la /tmp | grep service.lock", "rm -f /tmp/service.lock", "curl -i " ++ target_url]
  else if scenario_id = "bad_env_config" then
    some ["printenv | grep REQUIRED_API_KEY", "export REQUIRED_API_KEY=demo-key",
          "curl -i " ++ target_url]
  else if scenario_id = "readiness_probe_fail" then
    some ["ls -la /tmp | grep ready.flag", "touch /tmp/ready.flag", "curl -i " ++ target_url]
  else if scenario_id = "port_mismatch" then
    some ["ss -lntp | grep 5001", "socat TCP-LISTEN:5000,fork TCP:127.0.0.1:5001",
          "curl -i " ++ target_url]
  else none

/-- `_mock_plan(scenario_id, optimized, target_url)`; a missing dict key is a
`KeyError`, modelled as `none`. -/
def mock_plan (scenario_id : String) (optimized : Bool) (target_url : String) :
    Option (List String × Bool) :=
  match (if optimized then optimized_events target_url scenario_id
         else baseline_events target_url scenario_id) with
  | none => none
  | some events => some (events, true)

/-- `_mock_run(strategy_hint, error_report, target_url)`: the simulated
adapter. -/
def mock_run (strategy_hint error_report target_url : String) : Option OpenHandsResult :=
  match mock_plan (scenario_from_error error_report)
      (is_optimized_for_scenario strategy_hint (scenario_from_error error_report)) target_url with
  | none => none
  | some (events, service_up) =>
    some { strategy_hint := strategy_hint,
           raw_output := "Simulation run ("
             ++ (if is_optimized_for_scenario strategy_hint (scenario_from_error error_report)
                 then "optimized" else "baseline")
             ++ "): diagnosed " ++ scenario_from_error error_report ++ " and restored service.",
           service_up := service_up,
           step_count := events.length,
           events := events,
           scenario_id := scenario_from_error error_report,
           tool_actions := events.map (fun _ => "terminal"),
           security_risks := events.map (fun _ => "LOW"),
           max_security_risk_seen := "LOW",
           confirmation_required := false }

/-! ## agent_wrapper.py: one real attempt -/

/-- What one remote session yields before policy checks: the `tool_name` of
each `ActionEvent` (empty names already dropped, as the list comprehension
does), the `security_risk` annotation of every `ActionEvent`, the final
observation text and the streamed event texts. -/
structure SessionTrace where
  tool_actions : List String
  security_risks : List String
  final_message : String
  events : List String
deriving Repr, DecidableEq

/-- `terminal_or_file_actions`: the filter on line 328. -/
def terminal_or_file (tool_actions : List String) : List String :=
  tool_actions.filter (fun t => t == "terminal" || t == "file_editor")

/-- Python `max(risks, key=_risk_value)`: first element of maximal key
(later elements replace only on strictly greater key). -/
def py_max_by_risk : List String → Option String
  | [] => none
  | x :: xs =>
    some (xs.foldl (fun acc y =>
      if risk_value (some acc) < risk_value (some y) then y else acc) x)

/-- `max_risk_seen` as computed on lines 335-337 (initially `"UNKNOWN"`). -/
def max_risk_seen_of (risks : List String) : String :=
  (py_max_by_risk risks).getD "UNKNOWN"

/-- The `confirmation_required` flag of lines 344-347: set when the
threshold is given and some per-action risk reaches it (threshold
upper-cased first). -/
def confirmation_flag (risks : List String) (require_confirmation_for_risk : Option String) :
    Bool :=
  match require_confirmation_for_risk with
  | none => false
  | some t => risks.any (fun r =>
      decide (risk_value (some (pyUpper t)) ≤ risk_value (some r)))

/-- `_run_real_once` after the session ran: the action check, the max-risk
ceiling, the confirmation gate, and the assembled `OpenHandsResult`
(`service_up` is always `False` in real mode; health is judged externally).
Raised `RuntimeError`s are `Except.error` with the message. -/
def run_real_once (tr : SessionTrace) (strategy_hint scenario_id max_security_risk : String)
    (require_confirmation_for_risk : Option String) (auto_confirm : Bool) :
    Except String OpenHandsResult :=
  if (terminal_or_file tr.tool_actions).isEmpty then
    .error "Real run completed without terminal/file_editor tool actions."
  else if risk_value (some max_security_risk)
      < risk_value (some (max_risk_seen_of tr.security_risks)) then
    .error ("Security policy violation: max risk seen " ++ max_risk_seen_of tr.security_risks
      ++ " exceeds allowed " ++ max_security_risk ++ ".")
  else if confirmation_flag tr.security_risks require_confirmation_for_risk && !auto_confirm then
    .error "Confirmation required for risk threshold, but auto_confirm is disabled."
  else
    .ok { strategy_hint := strategy_hint,
          raw_output := if tr.final_message = "" then
              String.intercalate "\n" (tr.events.drop (tr.events.length - 6))
            else tr.final_message,
          service_up := false,
          step_count := max 1 (terminal_or_file tr.tool_actions).length,
          events := tr.events,
          scenario_id := scenario_id,
          tool_actions := terminal_or_file tr.tool_actions,
          security_risks := tr.security_risks,
          max_security_risk_seen := max_risk_seen_of tr.security_risks,
          confirmation_required := confirmation_flag tr.security_risks
            require_confirmation_for_risk }

/-! ## agent_wrapper.py: retry loop and forward -/

/-- The body of `_run_real`'s `while attempt < max_attempts` loop, with
`outcome k` the result attempt number `k` would produce and `fuel` the
attempts still allowed.  Returns the final result, the number of attempts
consumed, and the sleeps (`min(3.0 * attempt, 10.0)`) performed between
attempts, in order.  `fuel = 0` is unreachable from `_run_real`
(`max_attempts = real_max_retries + 1 ≥ 1`). -/
def run_real_loop (outcome : Nat → Except String α) : Nat → Nat → Except String α × Nat × List Nat
  | _, 0 => (.error "", 0, [])
  | k, fuel + 1 =>
    match outcome k with
    | .ok r => (.ok r, 1, [])
    | .error e =>
      if fuel == 0 || !is_transient_remote_error e then (.error e, 1, [])
      else
        ((run_real_loop outcome (k + 1) fuel).1,
         (run_real_loop outcome (k + 1) fuel).2.1 + 1,
         min (3 * k) 10 :: (run_real_loop outcome (k + 1) fuel).2.2)

/-- One attempt of `_run_real`: either the session machinery itself raised
(`.error`), or the session produced a trace and `_run_real_once` finishes it. -/
def attempt_outcome (a : Except String SessionTrace)
    (strategy_hint scenario_id max_security_risk : String)
    (require_confirmation_for_risk : Option String) (auto_confirm : Bool) :
    Except String OpenHandsResult :=
  match a with
  | .error e => .error e
  | .ok tr => run_real_once tr strategy_hint scenario_id max_security_risk
      require_confirmation_for_risk auto_confirm

/-- `_run_real`: up to `real_max_retries + 1` attempts, starting at attempt 1. -/
def run_real (attempts : Nat → Except String SessionTrace) (real_max_retries : Nat)
    (strategy_hint scenario_id max_security_risk : String)
    (require_confirmation_for_risk : Option String) (auto_confirm : Bool) :
    Except String OpenHandsResult × Nat × List Nat :=
  run_real_loop (fun k => attempt_outcome (attempts k) strategy_hint scenario_id
    max_security_risk require_confirmation_for_risk auto_confirm) 1 (real_max_retries + 1)

/-- The dict `forward` returns: the result fields plus the fallback flags. -/
structure ForwardResult where
  result : OpenHandsResult
  fallback_used : Bool
  fallback_reason : Option String
deriving Repr, DecidableEq

/-- `scenario_id or self._scenario_from_error(error_report)` (empty string is
falsy in Python). -/
def resolve_scenario (scenario_id : Option String) (error_report : String) : String :=
  match scenario_id with
  | none => scenario_from_error error_report
  | some s => if s = "" then scenario_from_error error_report else s

/-- `forward`: dry-run short-circuit to the simulated adapter, otherwise the
real path with fallback to simulation when `use_mock_if_sdk_missing` allows
it.  A `KeyError` escaping `_mock_plan` would propagate (modelled as
`.error "KeyError"`; it never fires, see `mock_run_is_some`). -/
def forward (dry_run use_mock_if_sdk_missing : Bool) (strategy_hint error_report : String)
    (scenario_id : Option String) (max_security_risk : String)
    (require_confirmation_for_risk : Option String) (auto_confirm : Bool) (target_url : String)
    (attempts : Nat → Except String SessionTrace) (real_max_retries : Nat) :
    Except String ForwardResult :=
  if dry_run then
    match mock_run strategy_hint
        (resolve_scenario scenario_id error_report ++ ": " ++ error_report) target_url with
    | none => .error "KeyError"
    | some r => .ok { result := r, fallback_used := false, fallback_reason := none }
  else
    match (run_real attempts real_max_retries strategy_hint
        (resolve_scenario scenario_id error_report) max_security_risk
        require_confirmation_for_risk auto_confirm).1 with
    | .ok r => .ok { result := r, fallback_used := false, fallback_reason := none }
    | .error e =>
      if !use_mock_if_sdk_missing then .error e
      else
        match mock_run strategy_hint
            (resolve_scenario scenario_id error_report ++ ": " ++ error_report) target_url with
        | none => .error "KeyError"
        | some m => .ok { result := m, fallback_used := true, fallback_reason := some e }

/-! ## run_demo.py: the stability verifier -/

/-- The body of one HTTP probe after JSON parsing: `none` models a body that
is not valid JSON; the fields model `payload.get("status")` and
`payload.get("scenario")` (absent or non-string values behave like a
mismatch, which `Option String` captures for the comparisons made here). -/
structure ParsedBody where
  status : Option String
  scenario : Option String
deriving Repr, DecidableEq

/-- One observation returned by `_probe_http_response`, restricted to the
fields `verify_stable_endpoint` inspects. -/
structure ProbeObs where
  http_code : String
  content_type : String
  parsed : Option ParsedBody
deriving Repr, DecidableEq

/-- Verification outcome (`verified`, `attempts`, `last_failure`). -/
structure VerifyResult where
  verified : Bool
  attempts : List String
  last_failure : String
deriving Repr, DecidableEq

/-- The per-poll success test of `verify_stable_endpoint`: `none` means the
poll succeeded, `some reason` the reason recorded on failure.  Mirrors the
cascade on lines 208-227 of `run_demo.py` (the code formats some reasons
with the offending value; the messages here keep the discriminating part). -/
def poll_reason (expected_scenario : String) (o : ProbeObs) : Option String :=
  if o.http_code ≠ "200" then some ("http code " ++ o.http_code)
  else if !pyIn "application/json" (pyLower o.content_type) then
    some ("unexpected content-type "
      ++ (if pyLower o.content_type = "" then "(missing)" else pyLower o.content_type))
  else
    match o.parsed with
    | none => some "invalid JSON body"
    | some p =>
      if p.status ≠ some "ok" then some "unexpected status field"
      else if p.scenario ≠ some expected_scenario then some "unexpected scenario field"
      else none

/-- The polling loop of `verify_stable_endpoint` over the remaining probe
observations, carrying the `successes` counter, the codes seen so far and
the last failure reason. -/
def verify_loop (expected : String) (consecutive : Nat) :
    List ProbeObs → Nat → List String → String → VerifyResult
  | [], _, att, lf => { verified := false, attempts := att, last_failure := lf }
  | o :: os, successes, att, lf =>
    match poll_reason expected o with
    | none =>
      if consecutive ≤ successes + 1 then
        { verified := true, attempts := att ++ [o.http_code], last_failure := "" }
      else verify_loop expected consecutive os (successes + 1) (att ++ [o.http_code]) lf
    | some r => verify_loop expected consecutive os 0 (att ++ [o.http_code]) r

/-- `verify_stable_endpoint(url, expected_scenario, consecutive_successes,
max_attempts, interval_s)`, with `probes` the observation each of the
`max_attempts` polls would produce (so `probes.length = max_attempts`). -/
def verify_stable_endpoint (expected : String) (consecutive : Nat)
    (probes : List ProbeObs) : VerifyResult :=
  verify_loop expected consecutive probes 0 [] ""

/-! ## scripts/fanout_sre.py: incidents and the queue -/

/-- The `Incident` dataclass (`created_at` as an abstract tick). -/
structure Incident where
  id : String
  scenario_id : String
  severity : String
  created_at : Nat
deriving Repr, DecidableEq

/-- `severity_weight(sev)` with default 1 for unknown severities. -/
def severity_weight (sev : String) : Nat :=
  if sev = "critical" then 4
  else if sev = "high" then 3
  else if sev = "medium" then 2
  else if sev = "low" then 1
  else 1

/-- Insert `x` into a descending-by-key list, after every element of key at
least `key x` — the stable position CPython's sort gives a later element. -/
def insert_desc_by (key : α → Nat) (x : α) : List α → List α
  | [] => [x]
  | y :: ys => if key x ≤ key y then y :: insert_desc_by key x ys else x :: y :: ys

/-- `list.sort(key=key, reverse=True)`: CPython's stable sort, descending. -/
def py_stable_sort_desc (key : α → Nat) (l : List α) : List α :=
  l.foldl (fun acc x => insert_desc_by key x acc) []

/-- The one-shot initial queue (lines 227-228): generated incidents sorted
descending by severity weight, stably. -/
def one_shot_queue (gen : List Incident) : List Incident :=
  py_stable_sort_desc (fun i => severity_weight i.severity) gen

/-! ## scripts/fanout_sre.py: dispatcher state machine -/

/-- The per-completion record the dispatcher stores (the dict built in
`process_incident`, or the error dict of the `except` branches).  Wall-clock
fields are omitted; `error` is the extra key of the error dict. -/
structure RunRecord where
  incident_id : String
  scenario_id : String
  severity : String
  service_up : Bool
  step_count : Nat
  fallback_used : Bool
  max_security_risk_seen : String
  confirmation_required : Bool
  tool_actions : List String
  error : Option String
deriving Repr, DecidableEq

/-- Dispatcher state: the pending queue (one-shot mode), the `active` dict
(futures in flight, in insertion order) and the `completed` list. -/
structure DispatchState where
  queue : List Incident
  active : List Incident
  completed : List RunRecord
deriving Repr, DecidableEq

/-- `submit_one(incident)`: submit to the executor and record in `active`
(no guard on the number already in flight). -/
def submit_one (s : DispatchState) (inc : Incident) : DispatchState :=
  { s with active := s.active ++ [inc] }

/-- The one-shot fill loop `while queue and len(active) < concurrency:
submit_one(queue.pop(0))`, returning the remaining queue and new active set. -/
def fill_loop (concurrency : Nat) : List Incident → List Incident → List Incident × List Incident
  | [], active => ([], active)
  | q :: qs, active =>
    if active.length < concurrency then fill_loop concurrency qs (active ++ [q])
    else (q :: qs, active)

/-- One-shot start state: sorted queue, initial fill, nothing completed. -/
def one_shot_start (concurrency : Nat) (gen : List Incident) : DispatchState :=
  { queue := (fill_loop concurrency (one_shot_queue gen) []).1,
    active := (fill_loop concurrency (one_shot_queue gen) []).2,
    completed := [] }

/-- The error dict built when `fut.result()` raises (lines 240-254):
`service_up=False`, `step_count=999`, no fallback, risk `UNKNOWN`, the
exception recorded under `error`. -/
def error_record (inc : Incident) (e : String) : RunRecord :=
  { incident_id := inc.id,
    scenario_id := inc.scenario_id,
    severity := inc.severity,
    service_up := false,
    step_count := 999,
    fallback_used := false,
    max_security_risk_seen := "UNKNOWN",
    confirmation_required := false,
    tool_actions := [],
    error := some e }

/-- The record appended for a finished future: the worker's record, or the
error dict when the worker raised. -/
def completion_record (inc : Incident) (res : Except String RunRecord) : RunRecord :=
  match res with
  | .ok r => r
  | .error e => error_record inc e

/-- One-shot handling of one finished future (lines 234-259): pop it from
`active`, append the completion record, and hand the freed worker the next
queued incident, if any. -/
def on_done (s : DispatchState) (inc : Incident) (res : Except String RunRecord) :
    DispatchState :=
  match s.queue with
  | [] =>
    { queue := [],
      active := s.active.erase inc,
      completed := s.completed ++ [completion_record inc res] }
  | q :: qs =>
    { queue := qs,
      active := s.active.erase inc ++ [q],
      completed := s.completed ++ [completion_record inc res] }

/-- Continuous-arrival submission burst (lines 185-190): every incident due
before `end_time` is generated and submitted immediately, with no check of
how many are already active. -/
def continuous_arrivals (s : DispatchState) (incs : List Incident) : DispatchState :=
  incs.foldl submit_one s

/-- Continuous-mode handling of one finished future (lines 197-219): pop and
record; there is no queue to refill from. -/
def cont_on_done (s : DispatchState) (inc : Incident) (res : Except String RunRecord) :
    DispatchState :=
  { s with active := s.active.erase inc,
           completed := s.completed ++ [completion_record inc res] }

/-! ## Concrete inputs used by witnesses and counterexamples -/

/-- A healthy probe observation for scenario `stale_lockfile`. -/
def probe_ok_stale : ProbeObs :=
  { http_code := "200", content_type := "application/json",
    parsed := some { status := some "ok", scenario := some "stale_lockfile" } }

/-- A failing probe observation: HTTP 500. -/
def probe_err_500 : ProbeObs :=
  { http_code := "500", content_type := "text/html", parsed := none }

/-- A session trace with one terminal action of risk LOW. -/
def demo_trace : SessionTrace :=
  { tool_actions := ["terminal"], security_risks := ["LOW"],
    final_message := "done", events := [] }

/-- The outcome `_run_real_once` produces on `demo_trace` under ceiling HIGH
and no confirmation threshold. -/
def demo_outcome : OpenHandsResult :=
  { strategy_hint := "h", raw_output := "done", service_up := false, step_count := 1,
    events := [], scenario_id := "s", tool_actions := ["terminal"],
    security_risks := ["LOW"], max_security_risk_seen := "LOW",
    confirmation_required := false }

/-- A session trace with one terminal action of risk MEDIUM. -/
def c7_trace : SessionTrace :=
  { tool_actions := ["terminal"], security_risks := ["MEDIUM"],
    final_message := "done", events := [] }

/-- The outcome `_run_real_once` produces on `c7_trace` under ceiling HIGH,
confirmation threshold LOW and `auto_confirm = True`. -/
def c7_result : OpenHandsResult :=
  { strategy_hint := "h", raw_output := "done", service_up := false, step_count := 1,
    events := [], scenario_id := "s", tool_actions := ["terminal"],
    security_risks := ["MEDIUM"], max_security_risk_seen := "MEDIUM",
    confirmation_required := true }

/-- The dry-run call of the C1 counterexample: policy ceiling `"UNKNOWN"`. -/
def c1_dry_call : Except String ForwardResult :=
  forward true true "h" "incident report" none "UNKNOWN" none false "http://t"
    (fun _ => .error "no backend") 0

/-- Concrete incidents for dispatcher witnesses. -/
def inc_a : Incident :=
  { id := "inc-00001", scenario_id := "stale_lockfile", severity := "low", created_at := 0 }

def inc_b : Incident :=
  { id := "inc-00002", scenario_id := "bad_env_config", severity := "low", created_at := 1 }

def inc_c : Incident :=
  { id := "inc-00003", scenario_id := "port_mismatch", severity := "critical", created_at := 2 }

def inc_d : Incident :=
  { id := "inc-00004", scenario_id := "readiness_probe_fail", severity := "medium",
    created_at := 3 }

/-- A dispatcher state with one active incident and one queued incident. -/
def c6_state : DispatchState :=
  { queue := [inc_b], active := [inc_a], completed := [] }

/-! ## Helper lemmas: characters and case mapping -/

theorem toNat_char_ofNat_valid {n : Nat} (h : n < 55296) : (Char.ofNat n).toNat = n := by
  unfold Char.ofNat
  rw [dif_pos (Or.inl h)]
  rfl

theorem upperChar_eq_of_range {c : Char} (h : 97 ≤ c.toNat ∧ c.toNat ≤ 122) :
    upperChar c = Char.ofNat (c.toNat - 32) := by
  simp only [upperChar]
  rw [if_pos h]

theorem upperChar_eq_of_not {c : Char} (h : ¬(97 ≤ c.toNat ∧ c.toNat ≤ 122)) :
    upperChar c = c := by
  simp only [upperChar]
  rw [if_neg h]

theorem upperChar_idem (c : Char) : upperChar (upperChar c) = upperChar c := by
  by_cases h : 97 ≤ c.toNat ∧ c.toNat ≤ 122
  · rw [upperChar_eq_of_range h]
    apply upperChar_eq_of_not
    rw [toNat_char_ofNat_valid (by omega)]
    omega
  · rw [upperChar_eq_of_not h, upperChar_eq_of_not h]

theorem pyUpper_idem (s : String) : pyUpper (pyUpper s) = pyUpper s := by
  simp only [pyUpper, List.map_map]
  exact congrArg String.mk (List.map_congr_left (fun c _ => upperChar_idem c))

theorem pyUpper_eq_empty_iff (s : String) : pyUpper s = "" ↔ s = "" := by
  constructor
  · intro h
    have hd : (pyUpper s).data = ("" : String).data := congrArg String.data h
    simp only [pyUpper, List.map_eq_nil_iff] at hd
    cases s
    simp_all
  · intro h
    subst h
    rfl

/-! ## Helper lemmas: risk values -/

theorem risk_value_pyUpper (s : String) :
    risk_value (some (pyUpper s)) = risk_value (some s) := by
  by_cases h : s = ""
  · subst h
    rfl
  · have h2 : pyUpper s ≠ "" := fun hc => h ((pyUpper_eq_empty_iff s).1 hc)
    simp only [risk_value, if_neg h, if_neg h2, pyUpper_idem]

theorem RISK_ORDER_eq_none {s : String}
    (h : s ∉ (["UNKNOWN", "LOW", "MEDIUM", "HIGH"] : List String)) :
    RISK_ORDER s = none := by
  simp only [List.mem_cons, List.not_mem_nil, or_false, not_or] at h
  obtain ⟨h1, h2, h3, h4⟩ := h
  simp [RISK_ORDER, h1, h2, h3, h4]

theorem risk_value_of_unrecognized {s : String}
    (h : pyUpper s ∉ (["UNKNOWN", "LOW", "MEDIUM", "HIGH"] : List String)) :
    risk_value (some s) = 0 := by
  by_cases he : s = ""
  · subst he
    rfl
  · simp only [risk_value, if_neg he, RISK_ORDER_eq_none h, Option.getD_none]

/-! ## Helper lemmas: the simulated adapter is total -/

theorem scenario_from_error_mem (report : String) :
    scenario_from_error report ∈
      (["stale_lockfile", "bad_env_config", "readiness_probe_fail", "port_mismatch"] :
        List String) := by
  unfold scenario_from_error
  repeat' split
  all_goals simp

theorem mock_plan_is_some {scenario : String}
    (h : scenario ∈
      (["stale_lockfile", "bad_env_config", "readiness_probe_fail", "port_mismatch"] :
        List String))
    (optimized : Bool) (url : String) :
    ∃ events, mock_plan scenario optimized url = some (events, true) := by
  simp only [List.mem_cons, List.not_mem_nil, or_false] at h
  rcases h with h | h | h | h <;> subst h <;> cases optimized <;>
    simp [mock_plan, baseline_events, optimized_events]

theorem mock_run_eq {hint report url : String} {events : List String}
    (hp : mock_plan (scenario_from_error report)
      (is_optimized_for_scenario hint (scenario_from_error report)) url
        = some (events, true)) :
    mock_run hint report url = some
      { strategy_hint := hint,
        raw_output := "Simulation run ("
          ++ (if is_optimized_for_scenario hint (scenario_from_error report)
              then "optimized" else "baseline")
          ++ "): diagnosed " ++ scenario_from_error report ++ " and restored service.",
        service_up := true,
        step_count := events.length,
        events := events,
        scenario_id := scenario_from_error report,
        tool_actions := events.map (fun _ => "terminal"),
        security_risks := events.map (fun _ => "LOW"),
        max_security_risk_seen := "LOW",
        confirmation_required := false } := by
  unfold mock_run
  rw [hp]

theorem mock_run_is_some (hint report url : String) :
    ∃ r, mock_run hint report url = some r
      ∧ r.service_up = true
      ∧ r.max_security_risk_seen = "LOW"
      ∧ r.confirmation_required = false
      ∧ ∀ x ∈ r.security_risks, x = "LOW" := by
  obtain ⟨events, hp⟩ := mock_plan_is_some (scenario_from_error_mem report)
    (is_optimized_for_scenario hint (scenario_from_error report)) url
  refine ⟨_, mock_run_eq hp, rfl, rfl, rfl, ?_⟩
  intro x hx
  obtain ⟨a, -, rfl⟩ := List.mem_map.1 hx
  rfl

/-! ## Helper lemmas: one real attempt -/

theorem run_real_once_ok {tr : SessionTrace} {hint scen pol : String} {req : Option String}
    {auto : Bool} {r : OpenHandsResult}
    (h : run_real_once tr hint scen pol req auto = .ok r) :
    r.max_security_risk_seen = max_risk_seen_of tr.security_risks
    ∧ r.confirmation_required = confirmation_flag tr.security_risks req
    ∧ risk_value (some (max_risk_seen_of tr.security_risks)) ≤ risk_value (some pol)
    ∧ (confirmation_flag tr.security_risks req && !auto) = false := by
  unfold run_real_once at h
  split at h
  · simp at h
  · split at h
    · simp at h
    · next hrisk =>
      split at h
      · simp at h
      · next hconf =>
        injection h with h
        subst h
        exact ⟨rfl, rfl, Nat.le_of_not_lt hrisk, by simpa using hconf⟩

theorem run_real_once_rejects_unconfirmed {tr : SessionTrace}
    {hint scen pol : String} {t : String}
    (hflag : confirmation_flag tr.security_risks (some t) = true) :
    ∃ e, run_real_once tr hint scen pol (some t) false = .error e := by
  unfold run_real_once
  split
  · exact ⟨_, rfl⟩
  · split
    · exact ⟨_, rfl⟩
    · rw [if_pos (by simp [hflag])]
      exact ⟨_, rfl⟩

theorem confirmation_flag_iff (risks : List String) (t : String) :
    confirmation_flag risks (some t) = true
      ↔ ∃ risk ∈ risks, risk_value (some t) ≤ risk_value (some risk) := by
  simp only [confirmation_flag, List.any_eq_true, decide_eq_true_eq, risk_value_pyUpper]

/-! ## Helper lemmas: the retry loop -/

theorem run_real_loop_fst_ok {outcome : Nat → Except String α} :
    ∀ fuel k r, (run_real_loop outcome k fuel).1 = .ok r → ∃ j, outcome j = .ok r := by
  intro fuel
  induction fuel with
  | zero =>
    intro k r h
    simp [run_real_loop] at h
  | succ f ih =>
    intro k r h
    unfold run_real_loop at h
    cases hk : outcome k with
    | ok r' =>
      rw [hk] at h
      simp only at h
      exact ⟨k, hk.trans (congrArg Except.ok (Except.ok.inj h))⟩
    | error e =>
      rw [hk] at h
      simp only at h
      split at h
      · simp at h
      · exact ih (k + 1) r h

theorem run_real_loop_succeeds {outcome : Nat → Except String α} :
    ∀ N k fuel (r : α), 1 ≤ N → N ≤ fuel →
      (∀ j, 1 ≤ j → j < N →
        ∃ e, outcome (k + j - 1) = .error e ∧ is_transient_remote_error e = true) →
      outcome (k + N - 1) = .ok r →
      run_real_loop outcome k fuel
        = (.ok r, N, (List.range (N - 1)).map (fun i => min (3 * (k + i)) 10)) := by
  intro N
  induction N with
  | zero =>
    intro k fuel r h1
    omega
  | succ m ih =>
    intro k fuel r h1 h2 hpre hok
    obtain ⟨f, rfl⟩ : ∃ f, fuel = f + 1 := ⟨fuel - 1, by omega⟩
    cases m with
    | zero =>
      have hk : outcome k = .ok r := by
        have : k + 1 - 1 = k := by omega
        rwa [this] at hok
      unfold run_real_loop
      rw [hk]
      simp
    | succ m' =>
      obtain ⟨e, he, htr⟩ := hpre 1 (by omega) (by omega)
      have hkk : k + 1 - 1 = k := by omega
      rw [hkk] at he
      have hf : f ≠ 0 := by omega
      unfold run_real_loop
      rw [he]
      simp only [hf, htr]
      rw [if_neg (by simp [hf, htr])]
      have hrec := ih (k + 1) f r (by omega) (by omega)
        (fun j hj1 hj2 => by
          obtain ⟨e', he', htr'⟩ := hpre (j + 1) (by omega) (by omega)
          refine ⟨e', ?_, htr'⟩
          have : k + (j + 1) - 1 = k + 1 + j - 1 := by omega
          rwa [this] at he')
        (by
          have : k + (m' + 1 + 1) - 1 = k + 1 + (m' + 1) - 1 := by omega
          rwa [this] at hok)
      rw [hrec]
      refine congrArg (fun sl => ((Except.ok r : Except String α), m' + 1 + 1, sl)) ?_
      have hm : m' + 1 + 1 - 1 = (m' + 1 - 1) + 1 := by omega
      rw [hm, List.range_succ_eq_map, List.map_cons, List.map_map]
      refine congrArg₂ List.cons (by omega) ?_
      exact List.map_congr_left (fun i _ => by simp [Function.comp]; omega)

theorem run_real_loop_aborts {outcome : Nat → Except String α} :
    ∀ N k fuel, 1 ≤ N → N ≤ fuel →
      (∀ j, 1 ≤ j → j < N →
        ∃ e', outcome (k + j - 1) = .error e' ∧ is_transient_remote_error e' = true) →
      ∀ e, outcome (k + N - 1) = .error e → is_transient_remote_error e = false →
      run_real_loop outcome k fuel
        = (.error e, N, (List.range (N - 1)).map (fun i => min (3 * (k + i)) 10)) := by
  intro N
  induction N with
  | zero =>
    intro k fuel h1
    omega
  | succ m ih =>
    intro k fuel h1 h2 hpre e hok htr
    obtain ⟨f, rfl⟩ : ∃ f, fuel = f + 1 := ⟨fuel - 1, by omega⟩
    cases m with
    | zero =>
      have hk : outcome k = .error e := by
        have : k + 1 - 1 = k := by omega
        rwa [this] at hok
      unfold run_real_loop
      rw [hk]
      simp [htr]
    | succ m' =>
      obtain ⟨e1, he, htr1⟩ := hpre 1 (by omega) (by omega)
      have hkk : k + 1 - 1 = k := by omega
      rw [hkk] at he
      have hf : f ≠ 0 := by omega
      unfold run_real_loop
      rw [he]
      simp only [hf, htr1]
      rw [if_neg (by simp [hf, htr1])]
      have hrec := ih (k + 1) f (by omega) (by omega)
        (fun j hj1 hj2 => by
          obtain ⟨e', he', htr'⟩ := hpre (j + 1) (by omega) (by omega)
          refine ⟨e', ?_, htr'⟩
          have : k + (j + 1) - 1 = k + 1 + j - 1 := by omega
          rwa [this] at he')
        e
        (by
          have : k + (m' + 1 + 1) - 1 = k + 1 + (m' + 1) - 1 := by omega
          rwa [this] at hok)
        htr
      rw [hrec]
      refine congrArg (fun sl => ((Except.error e : Except String α), m' + 1 + 1, sl)) ?_
      have hm : m' + 1 + 1 - 1 = (m' + 1 - 1) + 1 := by omega
      rw [hm, List.range_succ_eq_map, List.map_cons, List.map_map]
      refine congrArg₂ List.cons (by omega) ?_
      exact List.map_congr_left (fun i _ => by simp [Function.comp]; omega)

theorem run_real_loop_used_le {outcome : Nat → Except String α} :
    ∀ fuel k, (run_real_loop outcome k fuel).2.1 ≤ fuel := by
  intro fuel
  induction fuel with
  | zero =>
    intro k
    simp [run_real_loop]
  | succ f ih =>
    intro k
    unfold run_real_loop
    cases hk : outcome k with
    | ok r => simp
    | error e =>
      simp only
      by_cases hc : (f == 0 || !is_transient_remote_error e) = true
      · rw [if_pos hc]
        simp
      · rw [if_neg hc]
        simpa using Nat.succ_le_succ (ih (k + 1))

/-! ## Helper lemmas: the stable descending sort -/

theorem mem_insert_desc_by {key : α → Nat} {x a : α} :
    ∀ {l : List α}, a ∈ insert_desc_by key x l ↔ a = x ∨ a ∈ l := by
  intro l
  induction l with
  | nil => simp [insert_desc_by]
  | cons y ys ih =>
    simp only [insert_desc_by]
    split
    · simp only [List.mem_cons, ih]
      tauto
    · simp only [List.mem_cons]

theorem perm_insert_desc_by (key : α → Nat) (x : α) :
    ∀ l : List α, List.Perm (insert_desc_by key x l) (x :: l) := by
  intro l
  induction l with
  | nil => simp [insert_desc_by]
  | cons y ys ih =>
    simp only [insert_desc_by]
    split
    · exact (ih.cons y).trans (List.Perm.swap x y ys)
    · exact List.Perm.refl _

theorem pairwise_insert_desc_by {key : α → Nat} {x : α} :
    ∀ {l : List α}, l.Pairwise (fun a b => key b ≤ key a) →
      (insert_desc_by key x l).Pairwise (fun a b => key b ≤ key a) := by
  intro l
  induction l with
  | nil =>
    intro _
    simp [insert_desc_by]
  | cons y ys ih =>
    intro hp
    rw [List.pairwise_cons] at hp
    obtain ⟨hy, hys⟩ := hp
    simp only [insert_desc_by]
    split
    · next hxy =>
      rw [List.pairwise_cons]
      refine ⟨fun a ha => ?_, ih hys⟩
      rcases mem_insert_desc_by.1 ha with rfl | ha
      · exact hxy
      · exact hy a ha
    · next hxy =>
      rw [List.pairwise_cons]
      refine ⟨fun a ha => ?_, List.pairwise_cons.2 ⟨hy, hys⟩⟩
      rcases List.mem_cons.1 ha with rfl | ha
      · omega
      · have := hy a ha
        omega

theorem filter_insert_desc_by_pos {key : α → Nat} {p : α → Bool} {x : α}
    (hpx : p x = true) (hkey : ∀ y, p y = true → key y = key x) :
    ∀ {l : List α}, l.Pairwise (fun a b => key b ≤ key a) →
      (insert_desc_by key x l).filter p = l.filter p ++ [x] := by
  intro l
  induction l with
  | nil =>
    intro _
    simp [insert_desc_by, hpx]
  | cons y ys ih =>
    intro hp
    rw [List.pairwise_cons] at hp
    obtain ⟨hy, hys⟩ := hp
    simp only [insert_desc_by]
    split
    · next hxy =>
      by_cases hpy : p y = true
      · simp [List.filter_cons, hpy, ih hys]
      · simp [List.filter_cons, hpy, ih hys]
    · next hxy =>
      have hnil : (y :: ys).filter p = [] := by
        rw [List.filter_eq_nil_iff]
        intro a ha hpa
        have hka : key a = key x := hkey a hpa
        rcases List.mem_cons.1 ha with rfl | ha
        · omega
        · have := hy a ha
          omega
      rw [hnil, List.filter_cons_of_pos hpx, hnil]
      rfl

theorem filter_insert_desc_by_neg {key : α → Nat} {p : α → Bool} {x : α}
    (hpx : p x = false) :
    ∀ l : List α, (insert_desc_by key x l).filter p = l.filter p := by
  intro l
  induction l with
  | nil => simp [insert_desc_by, hpx]
  | cons y ys ih =>
    simp only [insert_desc_by]
    split
    · simp [List.filter_cons, ih]
    · simp [List.filter_cons, hpx]

theorem py_sort_go_pairwise {key : α → Nat} :
    ∀ (l acc : List α), acc.Pairwise (fun a b => key b ≤ key a) →
      (l.foldl (fun acc x => insert_desc_by key x acc) acc).Pairwise
        (fun a b => key b ≤ key a) := by
  intro l
  induction l with
  | nil =>
    intro acc h
    exact h
  | cons x xs ih =>
    intro acc h
    exact ih _ (pairwise_insert_desc_by h)

theorem py_sort_go_perm {key : α → Nat} :
    ∀ (l acc : List α),
      List.Perm (l.foldl (fun acc x => insert_desc_by key x acc) acc) (acc ++ l) := by
  intro l
  induction l with
  | nil =>
    intro acc
    simp
  | cons x xs ih =>
    intro acc
    refine (ih (insert_desc_by key x acc)).trans ?_
    refine (List.Perm.append_right xs (perm_insert_desc_by key x acc)).trans ?_
    exact List.perm_middle.symm

theorem py_sort_go_filter {key : α → Nat} {p : α → Bool}
    (hkey : ∀ a b, p a = true → p b = true → key a = key b) :
    ∀ (l acc : List α), acc.Pairwise (fun a b => key b ≤ key a) →
      (l.foldl (fun acc x => insert_desc_by key x acc) acc).filter p
        = acc.filter p ++ l.filter p := by
  intro l
  induction l with
  | nil =>
    intro acc _
    simp
  | cons x xs ih =>
    intro acc hacc
    by_cases hpx : p x = true
    · rw [List.foldl_cons, ih _ (pairwise_insert_desc_by hacc),
        filter_insert_desc_by_pos hpx (fun y hy => hkey y x hy hpx) hacc]
      simp [List.filter_cons, hpx]
    · have hpx' : p x = false := by
        simpa using hpx
      rw [List.foldl_cons, ih _ (pairwise_insert_desc_by hacc),
        filter_insert_desc_by_neg hpx' acc]
      simp [List.filter_cons, hpx']

/-! ## Helper lemmas: dispatcher state machine -/

theorem fill_loop_active_le {concurrency : Nat} :
    ∀ (q active : List Incident), active.length ≤ concurrency →
      (fill_loop concurrency q active).2.length ≤ concurrency := by
  intro q
  induction q with
  | nil =>
    intro active h
    exact h
  | cons x xs ih =>
    intro active h
    simp only [fill_loop]
    split
    · next hlt =>
      refine ih _ ?_
      simp only [List.length_append, List.length_cons, List.length_nil]
      omega
    · exact h

theorem on_done_completed (s : DispatchState) (inc : Incident)
    (res : Except String RunRecord) :
    (on_done s inc res).completed = s.completed ++ [completion_record inc res] := by
  unfold on_done
  cases s.queue <;> rfl

theorem on_done_queue (s : DispatchState) (inc : Incident)
    (res : Except String RunRecord) :
    (on_done s inc res).queue = s.queue.drop 1 := by
  unfold on_done
  cases s.queue <;> rfl

theorem on_done_active_le {c : Nat} {s : DispatchState} {inc : Incident}
    {res : Except String RunRecord}
    (hmem : inc ∈ s.active) (h : s.active.length ≤ c) :
    (on_done s inc res).active.length ≤ c := by
  have h1 : (s.active.erase inc).length = s.active.length - 1 :=
    List.length_erase_of_mem hmem
  have h0 : 0 < s.active.length := List.length_pos_of_mem hmem
  unfold on_done
  cases s.queue with
  | nil =>
    simp only [h1]
    omega
  | cons q qs =>
    simp only [List.length_append, List.length_cons, List.length_nil, h1]
    omega

theorem foldl_on_done_completed_length :
    ∀ (steps : List (Incident × Except String RunRecord)) (s : DispatchState),
      ((steps.foldl (fun st p => on_done st p.1 p.2) s).completed).length
        = s.completed.length + steps.length := by
  intro steps
  induction steps with
  | nil =>
    intro s
    simp
  | cons p ps ih =>
    intro s
    rw [List.foldl_cons, ih, on_done_completed]
    simp only [List.length_append, List.length_cons, List.length_nil]
    omega

/-! ## Claim theorems -/

/-- C10: `_risk_value` maps `None` and every string whose upper-cased form is
not one of UNKNOWN/LOW/MEDIUM/HIGH to 0, the bottom of the risk order; hence
an action with an unrecognized risk annotation can never by itself exceed a
policy ceiling, nor reach a confirmation threshold of LOW or above. -/
theorem c10_unrecognized_risk_is_bottom :
    risk_value none = 0
    ∧ (∀ s : String,
        pyUpper s ∉ (["UNKNOWN", "LOW", "MEDIUM", "HIGH"] : List String) →
        risk_value (some s) = 0)
    ∧ (∀ s pol : String,
        pyUpper s ∉ (["UNKNOWN", "LOW", "MEDIUM", "HIGH"] : List String) →
        ¬ risk_value (some pol) < risk_value (some s))
    ∧ (∀ s t : String,
        pyUpper s ∉ (["UNKNOWN", "LOW", "MEDIUM", "HIGH"] : List String) →
        1 ≤ risk_value (some t) →
        ¬ risk_value (some t) ≤ risk_value (some s)) := by
  refine ⟨rfl, fun s h => risk_value_of_unrecognized h, ?_, ?_⟩
  · intro s pol h
    rw [risk_value_of_unrecognized h]
    omega
  · intro s t h h1
    rw [risk_value_of_unrecognized h]
    omega

/-- C10 witness: the unrecognized annotation `"CRITICAL"` has value 0, never
exceeds the `"HIGH"` ceiling and never reaches the `"LOW"` threshold. -/
theorem c10_witness :
    risk_value (some "CRITICAL") = 0
    ∧ ¬ risk_value (some "HIGH") < risk_value (some "CRITICAL")
    ∧ ¬ risk_value (some "LOW") ≤ risk_value (some "CRITICAL") :=
  ⟨c10_unrecognized_risk_is_bottom.2.1 "CRITICAL" (by decide),
   c10_unrecognized_risk_is_bottom.2.2.1 "CRITICAL" "HIGH" (by decide),
   c10_unrecognized_risk_is_bottom.2.2.2 "CRITICAL" "LOW" (by decide) (by decide)⟩

/-- C9: a dry-run `forward` call returns the simulated outcome without
applying the security policy: `service_up = true`, `fallback_used = false`,
`confirmation_required = false`, `max_security_risk_seen = "LOW"` and every
per-action risk `"LOW"`, for all policy arguments, and it never raises. -/
theorem c9_dry_run_bypasses_policy
    (use_mock : Bool) (hint report : String) (scenario_id : Option String)
    (pol : String) (req : Option String) (auto : Bool) (url : String)
    (attempts : Nat → Except String SessionTrace) (retries : Nat) :
    ∃ fr, forward true use_mock hint report scenario_id pol req auto url attempts retries
        = .ok fr
      ∧ fr.result.service_up = true
      ∧ fr.fallback_used = false
      ∧ fr.result.confirmation_required = false
      ∧ fr.result.max_security_risk_seen = "LOW"
      ∧ ∀ x ∈ fr.result.security_risks, x = "LOW" := by
  obtain ⟨r, hr, hs, hm, hc, hl⟩ := mock_run_is_some hint
    (resolve_scenario scenario_id report ++ ": " ++ report) url
  refine ⟨{ result := r, fallback_used := false, fallback_reason := none },
    ?_, hs, rfl, hc, hm, hl⟩
  unfold forward
  rw [if_pos rfl, hr]

/-- C9 witness: a concrete dry-run call with a policy that would reject LOW
risks still reports a LOW-risk success without fallback. -/
theorem c9_witness :
    ∃ fr, forward true true "h" "broken readiness probe" none "UNKNOWN" (some "LOW") false
        "http://t" (fun _ => .error "no backend") 0 = .ok fr
      ∧ fr.result.service_up = true
      ∧ fr.fallback_used = false
      ∧ fr.result.confirmation_required = false
      ∧ fr.result.max_security_risk_seen = "LOW"
      ∧ ∀ x ∈ fr.result.security_risks, x = "LOW" :=
  c9_dry_run_bypasses_policy true "h" "broken readiness probe" none "UNKNOWN" (some "LOW")
    false "http://t" (fun _ => .error "no backend") 0

/-- C8: the one-shot initial queue is the generated incident list sorted
descending by severity weight (critical > high > medium > low) and the sort
is stable: a permutation, pairwise weight-descending, and incidents of each
fixed severity keep their generation order. -/
theorem c8_queue_sorted_stably (gen : List Incident) :
    List.Perm (one_shot_queue gen) gen
    ∧ (one_shot_queue gen).Pairwise
        (fun a b => severity_weight b.severity ≤ severity_weight a.severity)
    ∧ ∀ sev : String,
        (one_shot_queue gen).filter (fun i => i.severity == sev)
          = gen.filter (fun i => i.severity == sev) := by
  refine ⟨?_, ?_, ?_⟩
  · simpa [one_shot_queue, py_stable_sort_desc] using
      @py_sort_go_perm Incident (fun i => severity_weight i.severity) gen []
  · exact py_sort_go_pairwise gen [] (by simp)
  · intro sev
    have h := @py_sort_go_filter Incident (fun i => severity_weight i.severity)
      (fun i => i.severity == sev)
      (fun a b ha hb => by
        have ha' : a.severity = sev := by simpa using ha
        have hb' : b.severity = sev := by simpa using hb
        show severity_weight a.severity = severity_weight b.severity
        rw [ha', hb'])
      gen [] (by simp)
    simpa [one_shot_queue, py_stable_sort_desc] using h

/-- C8 witness: a low-severity incident generated before a critical one is
sorted after it, and same-severity incidents keep their order. -/
theorem c8_witness :
    List.Perm (one_shot_queue [inc_a, inc_c]) [inc_a, inc_c]
    ∧ (one_shot_queue [inc_a, inc_c]).Pairwise
        (fun a b => severity_weight b.severity ≤ severity_weight a.severity)
    ∧ ∀ sev : String,
        (one_shot_queue [inc_a, inc_c]).filter (fun i => i.severity == sev)
          = ([inc_a, inc_c] : List Incident).filter (fun i => i.severity == sev) :=
  c8_queue_sorted_stably [inc_a, inc_c]

/-- C3: a single poll succeeds iff the code is 200, the content type carries
application/json, the body parses with status "ok" and the expected scenario;
any failing poll resets the streak counter to zero; the sequence
[500,500,200,200] with streak 2 verifies after exactly 4 polls; and
[200,500,200] with streak 2 and 3 attempts ends unverified with the last
failure recorded. -/
theorem c3_verifier_streak :
    (∀ expected o, poll_reason expected o = none
      ↔ (o.http_code = "200"
         ∧ pyIn "application/json" (pyLower o.content_type) = true
         ∧ ∃ p, o.parsed = some p ∧ p.status = some "ok" ∧ p.scenario = some expected))
    ∧ (∀ expected consecutive os (o : ProbeObs) successes att lf r,
        poll_reason expected o = some r →
        verify_loop expected consecutive (o :: os) successes att lf
          = verify_loop expected consecutive os 0 (att ++ [o.http_code]) r)
    ∧ verify_stable_endpoint "stale_lockfile" 2
        [probe_err_500, probe_err_500, probe_ok_stale, probe_ok_stale]
        = { verified := true, attempts := ["500", "500", "200", "200"], last_failure := "" }
    ∧ verify_stable_endpoint "stale_lockfile" 2
        [probe_ok_stale, probe_err_500, probe_ok_stale]
        = { verified := false, attempts := ["200", "500", "200"],
            last_failure := "http code 500" } := by
  refine ⟨?_, ?_, by decide, by decide⟩
  · intro expected o
    constructor
    · intro h
      unfold poll_reason at h
      split at h
      · simp at h
      · next hcode =>
        split at h
        · simp at h
        · next hct =>
          cases hp : o.parsed with
          | none =>
            rw [hp] at h
            simp at h
          | some p =>
            rw [hp] at h
            simp only at h
            split at h
            · simp at h
            · next hst =>
              split at h
              · simp at h
              · next hsc =>
                exact ⟨by simpa using hcode, by simpa using hct, p, rfl,
                  by simpa using hst, by simpa using hsc⟩
    · rintro ⟨h1, h2, p, hp, hs, hsc⟩
      unfold poll_reason
      rw [if_neg (by simp [h1]), if_neg (by simp [h2]), hp]
      simp [hs, hsc]
  · intro expected consecutive os o successes att lf r h
    conv_lhs => rw [verify_loop, h]

/-- C3 witness: a 500 poll after one success resets the streak and records
the reason. -/
theorem c3_witness :
    verify_loop "stale_lockfile" 2 [probe_err_500] 1 ["200"] ""
      = verify_loop "stale_lockfile" 2 [] 0 (["200"] ++ ["500"]) "http code 500" :=
  c3_verifier_streak.2.1 "stale_lockfile" 2 [] probe_err_500 1 ["200"] "" "http code 500" rfl

/-- C5 counterexample: in continuous-arrival mode incidents are submitted as
they arrive with no free-slot check (lines 185-190 of fanout_sre.py), so
four arrivals before any completion put 4 incidents in the active set even
when the concurrency is 3: the claimed bound fails for continuous mode. -/
theorem c5_counterexample :
    (continuous_arrivals { queue := [], active := [], completed := [] }
      [inc_a, inc_b, inc_c, inc_d]).active.length = 4
    ∧ ¬ (continuous_arrivals { queue := [], active := [], completed := [] }
      [inc_a, inc_b, inc_c, inc_d]).active.length ≤ 3 := by
  decide

/-- C5 (amended): in one-shot mode the active set never exceeds the
concurrency: the start state (queue fill) satisfies the bound, and every
completion step — which removes the finished future and assigns at most the
next queued incident — preserves it.  (In continuous-arrival mode arrivals
are submitted immediately without waiting for a free worker, so the bound
holds only for one-shot scheduling.) -/
theorem c5_one_shot_active_bounded :
    (∀ c gen, (one_shot_start c gen).active.length ≤ c)
    ∧ (∀ c (s : DispatchState) inc res, inc ∈ s.active → s.active.length ≤ c →
        (on_done s inc res).active.length ≤ c) := by
  refine ⟨?_, fun c s inc res hmem h => on_done_active_le hmem h⟩
  intro c gen
  exact fill_loop_active_le _ _ (by simp)

/-- C5 witness: the bound holds on a concrete one-shot start and after a
concrete completion step. -/
theorem c5_witness :
    (one_shot_start 3 [inc_a]).active.length ≤ 3
    ∧ (on_done c6_state inc_a (.error "boom")).active.length ≤ 3 :=
  ⟨c5_one_shot_active_bounded.1 3 [inc_a],
   c5_one_shot_active_bounded.2 3 c6_state inc_a (.error "boom") (by decide) (by decide)⟩

/-- C6: a worker exception yields a failed completion record
(`service_up = false`, the exception kept under `error`), the incident is
not requeued, the freed worker immediately takes the queue head, the run
never aborts — the completion fold appends exactly one record per finished
future — and the continuous mode records failures the same way. -/
theorem c6_worker_failure_recorded :
    (∀ inc e, (error_record inc e).service_up = false ∧ (error_record inc e).error = some e)
    ∧ (∀ s inc e, (on_done s inc (.error e)).completed = s.completed ++ [error_record inc e])
    ∧ (∀ s inc e, inc ∉ s.queue → inc ∉ (on_done s inc (.error e)).queue)
    ∧ (∀ s inc e q qs, s.queue = q :: qs →
        (on_done s inc (.error e)).queue = qs
        ∧ (on_done s inc (.error e)).active = s.active.erase inc ++ [q])
    ∧ (∀ (steps : List (Incident × Except String RunRecord)) (s : DispatchState),
        ((steps.foldl (fun st p => on_done st p.1 p.2) s).completed).length
          = s.completed.length + steps.length)
    ∧ (∀ s inc e, (cont_on_done s inc (.error e)).completed
        = s.completed ++ [error_record inc e]) := by
  refine ⟨fun inc e => ⟨rfl, rfl⟩, fun s inc e => on_done_completed s inc (.error e),
    ?_, ?_, foldl_on_done_completed_length, fun s inc e => rfl⟩
  · intro s inc e hn
    rw [on_done_queue]
    intro hmem
    exact hn (List.mem_of_mem_drop hmem)
  · intro s inc e q qs hq
    unfold on_done
    rw [hq]
    exact ⟨rfl, rfl⟩

/-- C6 witness: a concrete failed completion is recorded with
`service_up = false`, the incident is gone from the queue, and the queued
incident is assigned to the freed worker. -/
theorem c6_witness :
    (error_record inc_a "boom").service_up = false
    ∧ (error_record inc_a "boom").error = some "boom"
    ∧ inc_a ∉ (on_done c6_state inc_a (.error "boom")).queue
    ∧ (on_done c6_state inc_a (.error "boom")).queue = []
    ∧ (on_done c6_state inc_a (.error "boom")).active
        = c6_state.active.erase inc_a ++ [inc_b] := by
  have h4 := c6_worker_failure_recorded.2.2.2.1 c6_state inc_a "boom" inc_b [] rfl
  exact ⟨(c6_worker_failure_recorded.1 inc_a "boom").1,
    (c6_worker_failure_recorded.1 inc_a "boom").2,
    c6_worker_failure_recorded.2.2.1 c6_state inc_a "boom" (by decide),
    h4.1, h4.2⟩

/-- C7: on a successful real attempt with a confirmation threshold set,
`confirmation_required` is true iff some observed per-action risk reaches
the threshold in the risk order; and when the threshold is reached with
`auto_confirm` off, the attempt is rejected — so a returned success then has
`confirmation_required = false`. -/
theorem c7_confirmation_threshold :
    (∀ (tr : SessionTrace) hint scen pol t auto r,
        run_real_once tr hint scen pol (some t) auto = .ok r →
        (r.confirmation_required = true
          ↔ ∃ risk ∈ tr.security_risks, risk_value (some t) ≤ risk_value (some risk))
        ∧ (auto = false → r.confirmation_required = false))
    ∧ (∀ (tr : SessionTrace) hint scen pol t,
        (∃ risk ∈ tr.security_risks, risk_value (some t) ≤ risk_value (some risk)) →
        ∃ e, run_real_once tr hint scen pol (some t) false = .error e) := by
  constructor
  · intro tr hint scen pol t auto r h
    obtain ⟨-, hconf, -, hgate⟩ := run_real_once_ok h
    constructor
    · rw [hconf]
      exact confirmation_flag_iff tr.security_risks t
    · intro hauto
      subst hauto
      simp only [Bool.not_false, Bool.and_true] at hgate
      rw [hconf]
      exact hgate
  · intro tr hint scen pol t hex
    exact run_real_once_rejects_unconfirmed ((confirmation_flag_iff _ _).2 hex)

/-- C7 witness: a MEDIUM action under threshold LOW with `auto_confirm` on
yields `confirmation_required = true`; with `auto_confirm` off the same
attempt is rejected. -/
theorem c7_witness :
    ((c7_result.confirmation_required = true
      ↔ ∃ risk ∈ c7_trace.security_risks,
          risk_value (some "LOW") ≤ risk_value (some risk))
     ∧ (true = false → c7_result.confirmation_required = false))
    ∧ ∃ e, run_real_once c7_trace "h" "s" "HIGH" (some "LOW") false = .error e :=
  ⟨c7_confirmation_threshold.1 c7_trace "h" "s" "HIGH" "LOW" true c7_result rfl,
   c7_confirmation_threshold.2 c7_trace "h" "s" "HIGH" "LOW"
     ⟨"MEDIUM", by decide, by decide⟩⟩

/-- C1 counterexample: a dry-run call with policy ceiling UNKNOWN returns a
non-fallback success (`service_up = true`, `fallback_used = false`) whose
`max_security_risk_seen` is LOW (value 1), strictly above the ceiling
(value 0) — the claim fails for dry-run calls, which skip the policy. -/
theorem c1_counterexample :
    c1_dry_call.toOption.map (fun fr => fr.fallback_used) = some false
    ∧ c1_dry_call.toOption.map (fun fr => fr.result.service_up) = some true
    ∧ c1_dry_call.toOption.map
        (fun fr => risk_value (some fr.result.max_security_risk_seen)) = some 1
    ∧ risk_value (some "UNKNOWN") = 0 := by
  refine ⟨?_, ?_, ?_, rfl⟩ <;> rfl

/-- C1 (amended): for every real-mode call (`dry_run = false`) and every
policy, an outcome returned with `fallback_used = false` has
`max_security_risk_seen` within the policy ceiling in the risk order. -/
theorem c1_real_mode_risk_gate
    (use_mock : Bool) (hint report : String) (scenario_id : Option String)
    (pol : String) (req : Option String) (auto : Bool) (url : String)
    (attempts : Nat → Except String SessionTrace) (retries : Nat)
    (fr : ForwardResult)
    (h : forward false use_mock hint report scenario_id pol req auto url attempts retries
      = .ok fr)
    (hfb : fr.fallback_used = false) :
    risk_value (some fr.result.max_security_risk_seen) ≤ risk_value (some pol) := by
  unfold forward at h
  rw [if_neg (by simp)] at h
  cases hr : (run_real attempts retries hint (resolve_scenario scenario_id report)
      pol req auto).1 with
  | ok r =>
    rw [hr] at h
    simp only at h
    injection h with h
    subst h
    unfold run_real at hr
    obtain ⟨j, hj⟩ := run_real_loop_fst_ok (retries + 1) 1 r hr
    cases ha : attempts j with
    | error e =>
      rw [ha] at hj
      simp [attempt_outcome] at hj
    | ok tr =>
      rw [ha] at hj
      simp only [attempt_outcome] at hj
      obtain ⟨hmax, -, hle, -⟩ := run_real_once_ok hj
      simpa [hmax] using hle
  | error e =>
    rw [hr] at h
    simp only at h
    split at h
    · simp at h
    · cases hm : mock_run hint (resolve_scenario scenario_id report ++ ": " ++ report) url with
      | none =>
        rw [hm] at h
        simp at h
      | some m =>
        rw [hm] at h
        simp only at h
        injection h with h
        rw [← h] at hfb
        simp at hfb

/-- C1 witness: a successful real call under ceiling HIGH returns an outcome
whose observed maximum risk LOW is within the ceiling. -/
theorem c1_witness :
    risk_value (some demo_outcome.max_security_risk_seen) ≤ risk_value (some "HIGH") :=
  c1_real_mode_risk_gate true "h" "r" (some "s") "HIGH" none false "u"
    (fun _ => .ok demo_trace) 0
    { result := demo_outcome, fallback_used := false, fallback_reason := none }
    rfl rfl

/-- C2: real-mode retry semantics: the Real adapter is attempted at most
`1 + max_retries` times; a success at attempt `N ≤ max_retries + 1` after
transient failures is returned after sleeping `min(3k, 10)` following each
failed attempt `k < N`, and `forward` returns it with
`fallback_used = false`; a non-transient failure at attempt `N` aborts there
with the same back-off history. -/
theorem c2_retry_backoff_semantics :
    (∀ (attempts : Nat → Except String SessionTrace) retries hint scen pol req auto,
        (run_real attempts retries hint scen pol req auto).2.1 ≤ retries + 1)
    ∧ (∀ (attempts : Nat → Except String SessionTrace) retries hint scen pol req auto r N,
        1 ≤ N → N ≤ retries + 1 →
        (∀ j, 1 ≤ j → j < N →
          ∃ e, attempt_outcome (attempts j) hint scen pol req auto = .error e
            ∧ is_transient_remote_error e = true) →
        attempt_outcome (attempts N) hint scen pol req auto = .ok r →
        run_real attempts retries hint scen pol req auto
          = (.ok r, N, (List.range (N - 1)).map (fun i => min (3 * (i + 1)) 10)))
    ∧ (∀ (attempts : Nat → Except String SessionTrace) retries hint scen pol req auto e N,
        1 ≤ N → N ≤ retries + 1 →
        (∀ j, 1 ≤ j → j < N →
          ∃ e', attempt_outcome (attempts j) hint scen pol req auto = .error e'
            ∧ is_transient_remote_error e' = true) →
        attempt_outcome (attempts N) hint scen pol req auto = .error e →
        is_transient_remote_error e = false →
        run_real attempts retries hint scen pol req auto
          = (.error e, N, (List.range (N - 1)).map (fun i => min (3 * (i + 1)) 10)))
    ∧ (∀ use_mock (attempts : Nat → Except String SessionTrace) retries hint report
          scenario_id pol req auto url r,
        (run_real attempts retries hint (resolve_scenario scenario_id report)
          pol req auto).1 = .ok r →
        forward false use_mock hint report scenario_id pol req auto url attempts retries
          = .ok { result := r, fallback_used := false, fallback_reason := none }) := by
  refine ⟨?_, ?_, ?_, ?_⟩
  · intro attempts retries hint scen pol req auto
    exact run_real_loop_used_le (retries + 1) 1
  · intro attempts retries hint scen pol req auto r N h1 h2 hpre hok
    unfold run_real
    rw [run_real_loop_succeeds N 1 (retries + 1) r h1 h2
      (fun j hj1 hj2 => by
        obtain ⟨e, he, htr⟩ := hpre j hj1 hj2
        refine ⟨e, ?_, htr⟩
        have hidx : 1 + j - 1 = j := by omega
        rw [hidx]
        exact he)
      (by
        have hidx : 1 + N - 1 = N := by omega
        rw [hidx]
        exact hok)]
    refine congrArg (fun sl => ((Except.ok r : Except String OpenHandsResult), N, sl)) ?_
    exact List.map_congr_left (fun i _ => by omega)
  · intro attempts retries hint scen pol req auto e N h1 h2 hpre hok htr
    unfold run_real
    rw [run_real_loop_aborts N 1 (retries + 1) h1 h2
      (fun j hj1 hj2 => by
        obtain ⟨e', he', htr'⟩ := hpre j hj1 hj2
        refine ⟨e', ?_, htr'⟩
        have hidx : 1 + j - 1 = j := by omega
        rw [hidx]
        exact he')
      e
      (by
        have hidx : 1 + N - 1 = N := by omega
        rw [hidx]
        exact hok)
      htr]
    refine congrArg (fun sl => ((Except.error e : Except String OpenHandsResult), N, sl)) ?_
    exact List.map_congr_left (fun i _ => by omega)
  · intro use_mock attempts retries hint report scenario_id pol req auto url r hr
    unfold forward
    rw [if_neg (by simp), hr]

/-- C2 witness: a backend that fails transiently on attempt 1 and succeeds
on attempt 2 (with `max_retries = 2`) yields the attempt-2 outcome after one
sleep of `min(3·1, 10) = 3`, and `forward` returns it without fallback. -/
theorem c2_witness :
    run_real (fun k => if k = 1 then .error "connection reset by peer" else .ok demo_trace)
      2 "h" "s" "HIGH" none false
      = (.ok demo_outcome, 2, [3])
    ∧ forward false true "h" "r" (some "s") "HIGH" none false "u"
        (fun k => if k = 1 then .error "connection reset by peer" else .ok demo_trace) 2
        = .ok { result := demo_outcome, fallback_used := false, fallback_reason := none } := by
  constructor
  · rw [c2_retry_backoff_semantics.2.1
      (fun k => if k = 1 then .error "connection reset by peer" else .ok demo_trace)
      2 "h" "s" "HIGH" none false demo_outcome 2 (by omega) (by omega)
      (fun j hj1 hj2 => by
        have hj : j = 1 := by omega
        subst hj
        exact ⟨"connection reset by peer", rfl, by decide⟩)
      rfl]
    rfl
  · exact c2_retry_backoff_semantics.2.2.2 true
      (fun k => if k = 1 then .error "connection reset by peer" else .ok demo_trace)
      2 "h" "r" (some "s") "HIGH" none false "u" demo_outcome (by rfl)

/-- C4: when the real path fails overall, `forward` with fallback allowed
runs the simulated adapter and returns its outcome with
`fallback_used = true` and `fallback_reason` the last error; with fallback
disallowed the failure propagates as an exception. -/
theorem c4_fallback_semantics
    (use_mock : Bool) (attempts : Nat → Except String SessionTrace) (retries : Nat)
    (hint report : String) (scenario_id : Option String) (pol : String)
    (req : Option String) (auto : Bool) (url : String) (e : String)
    (h : (run_real attempts retries hint (resolve_scenario scenario_id report)
      pol req auto).1 = .error e) :
    (use_mock = true → ∃ m,
        mock_run hint (resolve_scenario scenario_id report ++ ": " ++ report) url = some m
        ∧ forward false use_mock hint report scenario_id pol req auto url attempts retries
            = .ok { result := m, fallback_used := true, fallback_reason := some e })
    ∧ (use_mock = false →
        forward false use_mock hint report scenario_id pol req auto url attempts retries
          = .error e) := by
  constructor
  · rintro rfl
    obtain ⟨m, hm, -, -, -, -⟩ := mock_run_is_some hint
      (resolve_scenario scenario_id report ++ ": " ++ report) url
    refine ⟨m, hm, ?_⟩
    unfold forward
    rw [if_neg (by simp), h]
    simp only
    rw [hm]
    rfl
  · rintro rfl
    unfold forward
    rw [if_neg (by simp), h]
    rfl

/-- C4 witness: an always-transiently-failing backend with `max_retries = 1`
exhausts both attempts; with fallback allowed, `forward` returns the
simulated outcome flagged `fallback_used = true` carrying the last error. -/
theorem c4_witness :
    ∃ m, mock_run "h" (resolve_scenario (some "s") "r" ++ ": " ++ "r") "u" = some m
      ∧ forward false true "h" "r" (some "s") "HIGH" none false "u"
          (fun _ => .error "connection reset") 1
          = .ok { result := m, fallback_used := true, fallback_reason := some "connection reset" } :=
  (c4_fallback_semantics true (fun _ => .error "connection reset") 1 "h" "r" (some "s")
    "HIGH" none false "u" "connection reset" (by rfl)).1 rfl

end OpenhandsSRE
